import Mathlib

/-!
Shallow embedding of `src/agent.ts` of the its-broken-triage repository:
a two-stage webhook router that extracts a Slack channel id from a raw
payload, looks up the channel name, and delegates to a triage worker
only when the name equals the configured target channel.
-/

set_option maxRecDepth 4000

namespace ItsBrokenTriage

/-- Embedding of `const TARGET_CHANNEL = "its-broken"` (src/agent.ts line 26). -/
def TARGET_CHANNEL : String := "its-broken"

/-! ## Character classes of the extraction regex

`extractChannelId` uses the JavaScript regex `/"channel"\s*:\s*"([A-Z0-9]+)"/i`.
We embed its character classes exactly: `[A-Z0-9]` under the `i` flag is the
ASCII alphanumerics (without the `u` flag no non-ASCII character canonicalises
into `[A-Z0-9]`), and `\s` is the JavaScript whitespace set. -/

/-- The class `[A-Z0-9]` of the regex under the case-insensitive flag:
ASCII letters and digits. -/
def isTokenChar (c : Char) : Bool :=
  (('A' ≤ c && c ≤ 'Z') || ('a' ≤ c && c ≤ 'z') || ('0' ≤ c && c ≤ '9'))

/-- JavaScript `\s`: tab, line feed, vertical tab, form feed, carriage
return, space, and the Unicode space characters. -/
def isJsSpace (c : Char) : Bool :=
  c = '\t' || c = '\n' || c.toNat = 11 || c.toNat = 12 || c = '\r' || c = ' ' ||
  c.toNat = 0xa0 || c.toNat = 0x1680 ||
  (0x2000 ≤ c.toNat && c.toNat ≤ 0x200a) ||
  c.toNat = 0x2028 || c.toNat = 0x2029 || c.toNat = 0x202f ||
  c.toNat = 0x205f || c.toNat = 0x3000 || c.toNat = 0xfeff

/-- Case-insensitive match of a literal (the `"channel"` part of the regex,
under the `i` flag): consumes the literal from the front of the text and
returns the rest, or fails. -/
def matchLitCI : List Char → List Char → Option (List Char)
  | [], rest => some rest
  | _ :: _, [] => none
  | p :: ps, d :: ds => if d.toLower = p.toLower then matchLitCI ps ds else none

/-- Consume `\s*`: drop the maximal run of JavaScript whitespace. -/
def skipJsSpace : List Char → List Char
  | [] => []
  | c :: cs => if isJsSpace c then skipJsSpace cs else c :: cs

/-- Consume `[A-Z0-9]*` greedily (case-insensitively): the maximal run of
token characters, returned together with the rest. -/
def takeTokenRun : List Char → List Char × List Char
  | [] => ([], [])
  | c :: cs =>
    if isTokenChar c then
      let r := takeTokenRun cs
      (c :: r.1, r.2)
    else ([], c :: cs)

/-- Match the whole regex `/"channel"\s*:\s*"([A-Z0-9]+)"/i` anchored at the
front of the text, returning the captured token. Because the quantified
classes (`\s`, `[A-Z0-9]`) are disjoint from the characters that follow them
(`:` and `"`), greedy maximal-munch matching is exact. -/
def matchChannelAt (s : List Char) : Option String :=
  match matchLitCI ("\"channel\"".data) s with
  | none => none
  | some r1 =>
    match skipJsSpace r1 with
    | ':' :: r2 =>
      match skipJsSpace r2 with
      | '\"' :: r3 =>
        let tr := takeTokenRun r3
        match tr.1, tr.2 with
        | [], _ => none
        | _ :: _, '\"' :: _ => some (String.mk tr.1)
        | _ :: _, _ => none
      | _ => none
    | _ => none

/-- Leftmost-match scan of `String.match`: try the anchored match at each
successive start position and return the first capture. -/
def scanChannel : List Char → Option String
  | [] => none
  | c :: cs =>
    match matchChannelAt (c :: cs) with
    | some tok => some tok
    | none => scanChannel cs

/-- Embedding of `extractChannelId` (src/agent.ts lines 74-78):
`inputText.match(/"channel"\s*:\s*"([A-Z0-9]+)"/i)`, returning the first
capture group or null. -/
def extractChannelId (inputText : String) : Option String :=
  scanChannel inputText.data

/-! ## Data model

The agent's input and output are `{ type: "text", text: string }`; only the
text field carries information. The persisted state follows `stateSchema`
(src/agent.ts lines 62-67); its `stage` field is carried as a string so that
the defensive final branch of `onToolResults` (a stage that is neither of the
two enum values) is representable, with schema conformance as a separate
predicate. -/

/-- The persisted router state (`stateSchema`, src/agent.ts lines 62-67). -/
structure RouterState where
  originalInput : String
  channelId : String
  channelName : String
  stage : String
deriving DecidableEq, Repr

/-- Conformance to `stateSchema`: `stage` is one of the two enum values
`"checking_channel"` and `"running_triage"`. (The three string fields are
strings by construction.) -/
def conformsToStateSchema (s : RouterState) : Prop :=
  s.stage = "checking_channel" ∨ s.stage = "running_triage"

instance (s : RouterState) : Decidable (conformsToStateSchema s) := by
  unfold conformsToStateSchema; infer_instance

/-- A tool result delivered to `onToolResults`. `TypedToolResult<Tools>` is a
union discriminated by tool name over the router's two tools:
`slack_get_conversation_info` (whose output is read through the cast
`{ channel?: { name?: string } }`, so only the optional `channel?.name`
projection matters) and `its_broken_triage_worker` (output
`{ type: "text", text: string }`). -/
inductive ToolResult where
  | slackInfo (channelName : Option String)
  | worker (text : String)
deriving DecidableEq, Repr

/-- The field `r.toolName` of a typed tool result. -/
def ToolResult.toolName : ToolResult → String
  | .slackInfo _ => "slack_get_conversation_info"
  | .worker _ => "its_broken_triage_worker"

/-- The projection `channelResult.output.channel?.name` after the cast
`as { channel?: { name?: string } }`: on a worker-shaped output the
`channel` property is undefined, so the chain yields undefined. -/
def ToolResult.channelNameField : ToolResult → Option String
  | .slackInfo n => n
  | .worker _ => none

/-- The projection `triageResult.output.text` after the cast
`as { type: "text"; text: string }`: undefined on a non-worker output. -/
def ToolResult.workerTextField : ToolResult → Option String
  | .slackInfo _ => none
  | .worker t => some t

/-- JavaScript `x || d` for a string-or-undefined `x`: the default replaces
both undefined and the empty string (both falsy). -/
def orFalsy (x : Option String) (d : String) : String :=
  match x with
  | none => d
  | some s => if s = "" then d else s

/-- The input of an outbound tool call: `{ channel: string }` for the Slack
lookup, `{ type: "text", text: string }` for the worker delegation. -/
inductive ToolInput where
  | channel (channel : String)
  | text (text : String)
deriving DecidableEq, Repr

/-- An outbound tool call issued through `callTools`. -/
structure ToolCall where
  toolCallId : String
  toolName : String
  input : ToolInput
deriving DecidableEq, Repr

/-- An `AgentResult<Output, Tools>`: either a terminal output
`{ type: "output", output: { type: "text", text } }` or a `callTools`
suspension carrying the outbound calls. -/
inductive AgentResult where
  | output (text : String)
  | callTools (calls : List ToolCall)
deriving DecidableEq, Repr

/-- An operation on the host-persisted task state: `task.restore()` or
`task.save(s)`. Recorded in program order. -/
inductive StateOp where
  | restoreOp
  | saveOp (s : RouterState)
deriving DecidableEq, Repr

/-- The source-code branch a router step terminates in; the constructors
enumerate the return sites of `start` and `onToolResults` in order. -/
inductive Branch where
  | extractFail
  | lookupCall
  | restoreFail
  | infoMissing
  | nameMissing
  | mismatchSkip
  | delegateCall
  | workerMissing
  | workerDone
  | fallback
deriving DecidableEq, Repr

/-- Observable outcome of one router step: the returned `AgentResult`, the
`task` state operations it performed in order, and the return site. -/
structure StepOut where
  result : AgentResult
  ops : List StateOp
  branch : Branch
deriving DecidableEq, Repr

/-! ## The router step functions -/

/-- Embedding of `start` (src/agent.ts lines 83-116): extract the channel id; on failure
return the extraction-failure output without touching state; otherwise save
the initial state (`stage = "checking_channel"`) and issue the single
`slack_get_conversation_info` call. -/
def start (inputText : String) : StepOut :=
  match extractChannelId inputText with
  | none =>
    { result := .output "Could not extract channel ID from webhook payload. Skipping."
      ops := []
      branch := .extractFail }
  | some channelId =>
    { result := .callTools
        [{ toolCallId := "check-channel"
           toolName := "slack_get_conversation_info"
           input := .channel channelId }]
      ops := [.saveOp
        { originalInput := inputText
          channelId := channelId
          channelName := ""
          stage := "checking_channel" }]
      branch := .lookupCall }

/-- Embedding of `onToolResults` (src/agent.ts lines 121-230): restore the state (error
if missing), then branch on the stage: in `"checking_channel"` find the
channel-info result, extract and check the channel name against
`TARGET_CHANNEL`, and either skip or save the updated state and delegate to
the worker; in `"running_triage"` find the worker result and return its text
(falling back to `"Triage completed"` on falsy text); otherwise the
defensive `"Unexpected state"` fallback. `restored` is the value
`task.restore()` yields. -/
def onToolResults (results : List ToolResult) (restored : Option RouterState) :
    StepOut :=
  match restored with
  | none =>
    { result := .output "Error: Could not restore state"
      ops := [.restoreOp]
      branch := .restoreFail }
  | some state =>
    if state.stage = "checking_channel" then
      match results.find? (fun r => r.toolName == "slack_get_conversation_info") with
      | none =>
        { result := .output "Error: Could not get channel info from Slack"
          ops := [.restoreOp]
          branch := .infoMissing }
      | some channelResult =>
        match channelResult.channelNameField with
        | none =>
          { result := .output "Error: Could not determine channel name"
            ops := [.restoreOp]
            branch := .nameMissing }
        | some channelName =>
          if channelName = "" then
            { result := .output "Error: Could not determine channel name"
              ops := [.restoreOp]
              branch := .nameMissing }
          else if channelName ≠ TARGET_CHANNEL then
            { result := .output
                ("Skipped: Message was in #" ++ channelName ++ ", not #" ++ TARGET_CHANNEL)
              ops := [.restoreOp]
              branch := .mismatchSkip }
          else
            { result := .callTools
                [{ toolCallId := "run-triage"
                   toolName := "its_broken_triage_worker"
                   input := .text state.originalInput }]
              ops := [.restoreOp, .saveOp
                { state with channelName := channelName, stage := "running_triage" }]
              branch := .delegateCall }
    else if state.stage = "running_triage" then
      match results.find? (fun r => r.toolName == "its_broken_triage_worker") with
      | none =>
        { result := .output "Error: Triage worker did not return a result"
          ops := [.restoreOp]
          branch := .workerMissing }
      | some triageResult =>
        { result := .output (orFalsy triageResult.workerTextField "Triage completed")
          ops := [.restoreOp]
          branch := .workerDone }
    else
      { result := .output "Unexpected state"
        ops := [.restoreOp]
        branch := .fallback }

/-! ## Host persistence (modelled from the spec)

The save/restore/delete mechanics of the persisted state record live in the
hosting platform, not in `src/agent.ts`. -/

/-- Apply a step's state operations to the persisted store: a save overwrites
the record, a restore leaves it unchanged. -/
def applyOps (store : Option RouterState) (ops : List StateOp) :
    Option RouterState :=
  ops.foldl (fun st op => match op with | .restoreOp => st | .saveOp s => some s) store

/-- Modelled from the spec: the hosting platform's task-persistence
mechanism (absent from src/, which only calls `task.save`/`task.restore`)
keeps the record saved by the step across a suspension and deletes the
record once a terminal result is produced (spec §3 lifecycle row: "deleted
once a terminal result is produced"). -/
def hostStoreAfter (store : Option RouterState) (step : StepOut) :
    Option RouterState :=
  match step.result with
  | .output _ => none
  | .callTools _ => applyOps store step.ops

/-! ## Claim theorems -/

/-- C4: for every resumption, at either stage, in which state restoration
yields no state, `onToolResults` returns the output
`"Error: Could not restore state"` before any stage branching (and performs
only the single restore); the step is a total function, so no panic or
unhandled fault is possible. -/
theorem restore_failure_always_errors (results : List ToolResult) :
    onToolResults results none =
      { result := .output "Error: Could not restore state"
        ops := [.restoreOp]
        branch := .restoreFail } := rfl

/-- C3: for every input whose text the extraction regex does not match
anywhere (`extractChannelId` returns null), `start` returns the output
`"Could not extract channel ID from webhook payload. Skipping."`, makes no
outbound call (the result is a terminal output, not a suspension), and
performs no state operation at all. -/
theorem extract_failure_no_calls_no_state (inputText : String)
    (h : extractChannelId inputText = none) :
    start inputText =
      { result := .output "Could not extract channel ID from webhook payload. Skipping."
        ops := []
        branch := .extractFail } := by
  unfold start
  rw [h]

/-- Witness for C3 at the concrete input `"hello world"`. -/
theorem extract_failure_no_calls_no_state_witness :
    start "hello world" =
      { result := .output "Could not extract channel ID from webhook payload. Skipping."
        ops := []
        branch := .extractFail } :=
  extract_failure_no_calls_no_state "hello world" (by decide)

/-- C1: in stage `checking_channel`, when the channel-info result that the
step consumes carries a (non-empty) channel name different from the target
`"its-broken"`, the router terminates with the skip output naming both the
actual and the target channel, and issues no outbound call at all (the
result is a terminal output, not a `callTools` suspension). -/
theorem mismatch_skips_without_delegation (results : List ToolResult)
    (st : RouterState) (r : ToolResult) (n : String)
    (hstage : st.stage = "checking_channel")
    (hfind : results.find? (fun x => x.toolName == "slack_get_conversation_info") = some r)
    (hname : r.channelNameField = some n)
    (hne : n ≠ "") (hmt : n ≠ "its-broken") :
    (onToolResults results (some st)).result =
      .output ("Skipped: Message was in #" ++ n ++ ", not #its-broken") ∧
    ∀ calls, (onToolResults results (some st)).result ≠ .callTools calls := by
  unfold onToolResults
  simp [hstage, hfind, hname, hne, hmt, TARGET_CHANNEL]
  rw [String.append_assoc]
  rfl

/-- Witness for C1: channel name `"random-chan"` is skipped. -/
theorem mismatch_skips_without_delegation_witness :
    (onToolResults [.slackInfo (some "random-chan")]
        (some ⟨"orig", "C111", "", "checking_channel"⟩)).result =
      .output "Skipped: Message was in #random-chan, not #its-broken" :=
  (mismatch_skips_without_delegation
    [.slackInfo (some "random-chan")] ⟨"orig", "C111", "", "checking_channel"⟩
    (.slackInfo (some "random-chan")) "random-chan"
    rfl (by decide) rfl (by decide) (by decide)).1

/-- C2: when `start` receives input text `t` and extracts a channel id, it
saves `t` as `originalInput`; and a `checking_channel` resumption whose
consumed channel-info result carries the name `"its-broken"` issues exactly
one outbound call, to `its_broken_triage_worker`, with input
`{ type: "text", text: t }` — the original input text unchanged. -/
theorem match_delegates_original_input (t : String) (cid : String)
    (results : List ToolResult) (r : ToolResult)
    (hx : extractChannelId t = some cid)
    (hfind : results.find? (fun x => x.toolName == "slack_get_conversation_info") = some r)
    (hname : r.channelNameField = some "its-broken") :
    ∃ st0, applyOps none (start t).ops = some st0 ∧
      st0.stage = "checking_channel" ∧ st0.originalInput = t ∧
      (onToolResults results (some st0)).result =
        .callTools
          [{ toolCallId := "run-triage"
             toolName := "its_broken_triage_worker"
             input := .text t }] := by
  refine ⟨⟨t, cid, "", "checking_channel"⟩, ?_, rfl, rfl, ?_⟩
  · unfold start
    rw [hx]
    rfl
  · unfold onToolResults
    simp [hfind, hname, TARGET_CHANNEL]

/-- Witness for C2 at the concrete scenario of the spec: input
`{"channel":"C222"}`, lookup name `"its-broken"`. -/
theorem match_delegates_original_input_witness :
    ∃ st0, applyOps none (start "\x7b\"channel\":\"C222\"\x7d").ops = some st0 ∧
      st0.stage = "checking_channel" ∧
      st0.originalInput = "\x7b\"channel\":\"C222\"\x7d" ∧
      (onToolResults [.slackInfo (some "its-broken")] (some st0)).result =
        .callTools
          [{ toolCallId := "run-triage"
             toolName := "its_broken_triage_worker"
             input := .text "\x7b\"channel\":\"C222\"\x7d" }] :=
  match_delegates_original_input "\x7b\"channel\":\"C222\"\x7d" "C222"
    [.slackInfo (some "its-broken")] (.slackInfo (some "its-broken"))
    (by decide) (by decide) rfl

/-- C5: in stage `running_triage`, when the consumed worker result carries
text `t`, the final output text is `"Triage completed"` if `t` is empty and
exactly `t` otherwise. -/
theorem worker_text_relayed_or_defaulted (results : List ToolResult)
    (st : RouterState) (t : String)
    (hstage : st.stage = "running_triage")
    (hfind : results.find? (fun x => x.toolName == "its_broken_triage_worker") =
      some (.worker t)) :
    (onToolResults results (some st)).result =
      .output (if t = "" then "Triage completed" else t) := by
  unfold onToolResults
  simp [hstage, hfind, ToolResult.workerTextField, orFalsy]

/-- Witness for C5: empty worker text yields `"Triage completed"`; text
`"Issue #42 created"` is relayed exactly. -/
theorem worker_text_relayed_or_defaulted_witness :
    (onToolResults [.worker ""]
        (some ⟨"orig", "C1", "its-broken", "running_triage"⟩)).result =
      .output "Triage completed" ∧
    (onToolResults [.worker "Issue #42 created"]
        (some ⟨"orig", "C1", "its-broken", "running_triage"⟩)).result =
      .output "Issue #42 created" := by
  constructor
  · have h := worker_text_relayed_or_defaulted [.worker ""]
      ⟨"orig", "C1", "its-broken", "running_triage"⟩ "" rfl (by decide)
    simpa using h
  · have h := worker_text_relayed_or_defaulted [.worker "Issue #42 created"]
      ⟨"orig", "C1", "its-broken", "running_triage"⟩ "Issue #42 created" rfl (by decide)
    simpa using h

/-- C7 (host persistence modelled from the spec): whenever a router step —
`start` or a resumption — produces a terminal output, the hosting platform
deletes the persisted state record, so it no longer exists after the step. -/
theorem terminal_output_deletes_state (store : Option RouterState)
    (inputText : String) (results : List ToolResult)
    (restored : Option RouterState) :
    (∀ msg, (start inputText).result = .output msg →
      hostStoreAfter store (start inputText) = none) ∧
    (∀ msg, (onToolResults results restored).result = .output msg →
      hostStoreAfter store (onToolResults results restored) = none) := by
  constructor
  · intro msg h
    unfold hostStoreAfter
    rw [h]
  · intro msg h
    unfold hostStoreAfter
    rw [h]

/-- Witness for C7: the channel-mismatch skip leaves no state record. -/
theorem terminal_output_deletes_state_witness :
    hostStoreAfter (some ⟨"orig", "C111", "", "checking_channel"⟩)
      (onToolResults [.slackInfo (some "random-chan")]
        (some ⟨"orig", "C111", "", "checking_channel"⟩)) = none :=
  (terminal_output_deletes_state (some ⟨"orig", "C111", "", "checking_channel"⟩)
    "" [.slackInfo (some "random-chan")]
    (some ⟨"orig", "C111", "", "checking_channel"⟩)).2
    "Skipped: Message was in #random-chan, not #its-broken" (by decide)

/-- The skip output string begins with `'S'` and hence differs from every
string beginning with `'E'`, whatever channel name it embeds. -/
lemma skip_output_ne_error_string (n e : String)
    (he : e.data.head? = some 'E') :
    "Skipped: Message was in #" ++ n ++ ", not #" ++ TARGET_CHANNEL ≠ e := by
  intro h
  have hd := congrArg String.data h
  simp only [String.data_append] at hd
  simp only [List.cons_append] at hd
  rw [← hd] at he
  simp at he

/-- C8: in stage `checking_channel`, the output is
`"Error: Could not get channel info from Slack"` exactly when no result in
the list has tool name `slack_get_conversation_info`, and the output is
`"Error: Could not determine channel name"` exactly when such a result is
found but its output carries no channel name (the `channel.name` projection
is absent, or present but empty — both falsy). -/
theorem checking_stage_error_outputs (results : List ToolResult)
    (st : RouterState) (hstage : st.stage = "checking_channel") :
    ((onToolResults results (some st)).result =
        .output "Error: Could not get channel info from Slack" ↔
      ∀ r ∈ results, r.toolName ≠ "slack_get_conversation_info") ∧
    ((onToolResults results (some st)).result =
        .output "Error: Could not determine channel name" ↔
      ∃ r, results.find? (fun x => x.toolName == "slack_get_conversation_info") =
          some r ∧
        (r.channelNameField = none ∨ r.channelNameField = some "")) := by
  unfold onToolResults
  cases hf : results.find? (fun x => x.toolName == "slack_get_conversation_info") with
  | none =>
    have hall : ∀ r ∈ results, r.toolName ≠ "slack_get_conversation_info" := by
      intro r hr
      have := List.find?_eq_none.mp hf r hr
      simpa using this
    constructor
    · simpa [hstage, hf] using hall
    · simp [hstage, hf]
  | some r =>
    have hmem : r ∈ results := List.mem_of_find?_eq_some hf
    have hpred : r.toolName = "slack_get_conversation_info" := by
      have := List.find?_some hf
      simpa using this
    have hnall : ¬ ∀ x ∈ results, x.toolName ≠ "slack_get_conversation_info" :=
      fun hall => hall r hmem hpred
    cases hn : r.channelNameField with
    | none =>
      constructor
      · simp only [hstage, hf, hn]
        simp [hnall]
      · simp only [hstage, hf, hn]
        simp [hn]
    | some n =>
      by_cases hne : n = ""
      · subst hne
        constructor
        · simp only [hstage, hf, hn]
          simp [hnall]
        · simp only [hstage, hf, hn]
          simp [hn]
      · by_cases hmt : n = TARGET_CHANNEL
        · subst hmt
          constructor
          · simp only [hstage, hf, hn]
            simp [TARGET_CHANNEL, hnall]
          · simp only [hstage, hf, hn]
            simp [TARGET_CHANNEL, hn]
        · constructor
          · simp only [hstage, hf, hn]
            rw [if_neg hne, if_pos hmt]
            constructor
            · intro hcontr
              exact absurd (AgentResult.output.inj hcontr)
                (skip_output_ne_error_string n _ rfl)
            · intro hall
              exact (hnall hall).elim
          · simp only [hstage, hf, hn]
            rw [if_neg hne, if_pos hmt]
            constructor
            · intro hcontr
              exact absurd (AgentResult.output.inj hcontr)
                (skip_output_ne_error_string n _ rfl)
            · rintro ⟨r2, hr2, hfield⟩
              have hr2e : r2 = r := (Option.some.inj hr2).symm
              subst hr2e
              rw [hn] at hfield
              rcases hfield with h1 | h1
              · exact absurd h1 (by simp)
              · exact absurd (Option.some.inj h1) hne

/-- Witness for C8: an empty results list yields the channel-info error, and
a result with an absent channel name yields the channel-name error. -/
theorem checking_stage_error_outputs_witness :
    (onToolResults [] (some ⟨"orig", "C1", "", "checking_channel"⟩)).result =
      .output "Error: Could not get channel info from Slack" ∧
    (onToolResults [.slackInfo none]
        (some ⟨"orig", "C1", "", "checking_channel"⟩)).result =
      .output "Error: Could not determine channel name" := by
  constructor
  · exact (checking_stage_error_outputs []
      ⟨"orig", "C1", "", "checking_channel"⟩ rfl).1.mpr (by simp)
  · exact (checking_stage_error_outputs [.slackInfo none]
      ⟨"orig", "C1", "", "checking_channel"⟩ rfl).2.mpr
      ⟨.slackInfo none, by decide, Or.inl rfl⟩

/-- C9: on a resumption with a restorable state, the final fallback branch
of `onToolResults` is taken exactly when the stage is neither
`"checking_channel"` nor `"running_triage"`; for a state conforming to the
state schema (whose stage is an enum of exactly those two values) the
fallback is therefore never taken; and the fallback is the branch that
returns the output `"Unexpected state"`. -/
theorem unexpected_state_only_off_schema (results : List ToolResult)
    (st : RouterState) :
    ((onToolResults results (some st)).branch = .fallback ↔
      (st.stage ≠ "checking_channel" ∧ st.stage ≠ "running_triage")) ∧
    (conformsToStateSchema st →
      (onToolResults results (some st)).branch ≠ .fallback) ∧
    ((onToolResults results (some st)).branch = .fallback →
      (onToolResults results (some st)).result = .output "Unexpected state") := by
  have hmain : (onToolResults results (some st)).branch = .fallback ↔
      (st.stage ≠ "checking_channel" ∧ st.stage ≠ "running_triage") := by
    unfold onToolResults
    by_cases h1 : st.stage = "checking_channel"
    · cases hf : results.find? (fun x => x.toolName == "slack_get_conversation_info") with
      | none => simp [h1, hf]
      | some r =>
        cases hn : r.channelNameField with
        | none => simp [h1, hf, hn]
        | some n =>
          by_cases hne : n = ""
          · simp [h1, hf, hn, hne]
          · by_cases hmt : n = TARGET_CHANNEL
            · subst hmt
              simp [h1, hf, hn, TARGET_CHANNEL]
            · simp [h1, hf, hn, hne, hmt]
    · by_cases h2 : st.stage = "running_triage"
      · cases hf : results.find? (fun x => x.toolName == "its_broken_triage_worker") with
        | none => simp [h1, h2, hf]
        | some r => simp [h1, h2, hf]
      · simp [h1, h2]
  refine ⟨hmain, ?_, ?_⟩
  · intro hconf hfb
    obtain ⟨ha, hb⟩ := hmain.mp hfb
    cases hconf with
    | inl h => exact ha h
    | inr h => exact hb h
  · intro hfb
    obtain ⟨ha, hb⟩ := hmain.mp hfb
    unfold onToolResults
    simp [ha, hb]

/-- Witness for C9: a stage value outside the schema enum takes the fallback
and yields `"Unexpected state"`; a conforming stage does not. -/
theorem unexpected_state_only_off_schema_witness :
    (onToolResults [] (some ⟨"orig", "C1", "", "weird_stage"⟩)).branch =
      .fallback ∧
    (onToolResults [] (some ⟨"orig", "C1", "", "weird_stage"⟩)).result =
      .output "Unexpected state" ∧
    (onToolResults [] (some ⟨"orig", "C1", "", "running_triage"⟩)).branch ≠
      .fallback := by
  have h := unexpected_state_only_off_schema [] ⟨"orig", "C1", "", "weird_stage"⟩
  have h2 := unexpected_state_only_off_schema [] ⟨"orig", "C1", "", "running_triage"⟩
  refine ⟨h.1.mpr (by decide), h.2.2 (h.1.mpr (by decide)), h2.2.1 (Or.inr rfl)⟩

/-- C6: state-access discipline. `start` never reads the persisted state; a
resumption reads it exactly once, as its first state operation (the
operation list is `[restore]` or `[restore, save _]`). Before suspending,
the state is rewritten with the stage of the upcoming suspension: when
`start` suspends it has saved
`{ originalInput := input text, channelId := extracted id, channelName := "",
stage := "checking_channel" }`, and when a resumption suspends it was in
stage `"checking_channel"` and has saved the restored state overwritten
with the looked-up channel name and stage `"running_triage"`. -/
theorem state_access_discipline (inputText : String)
    (results : List ToolResult) (restored : Option RouterState) :
    (∀ op ∈ (start inputText).ops, op ≠ StateOp.restoreOp) ∧
    ((onToolResults results restored).ops = [.restoreOp] ∨
      ∃ s, (onToolResults results restored).ops = [.restoreOp, .saveOp s]) ∧
    (∀ calls, (start inputText).result = .callTools calls →
      ∃ cid, extractChannelId inputText = some cid ∧
        (start inputText).ops =
          [.saveOp
            { originalInput := inputText, channelId := cid,
              channelName := "", stage := "checking_channel" }]) ∧
    (∀ st calls, restored = some st →
      (onToolResults results restored).result = .callTools calls →
      st.stage = "checking_channel" ∧
      ∃ n, (onToolResults results restored).ops =
        [.restoreOp,
         .saveOp { st with channelName := n, stage := "running_triage" }]) := by
  refine ⟨?_, ?_, ?_, ?_⟩
  · cases hx : extractChannelId inputText with
    | none => simp [start, hx]
    | some cid => simp [start, hx]
  · cases restored with
    | none => exact Or.inl rfl
    | some st =>
      unfold onToolResults
      by_cases h1 : st.stage = "checking_channel"
      · cases hf : results.find? (fun x => x.toolName == "slack_get_conversation_info") with
        | none => simp [h1, hf]
        | some r =>
          cases hn : r.channelNameField with
          | none => simp [h1, hf, hn]
          | some n =>
            by_cases hne : n = ""
            · simp [h1, hf, hn, hne]
            · by_cases hmt : n = TARGET_CHANNEL
              · subst hmt
                simp [h1, hf, hn, TARGET_CHANNEL]
              · simp [h1, hf, hn, hne, hmt]
      · by_cases h2 : st.stage = "running_triage"
        · cases hf : results.find? (fun x => x.toolName == "its_broken_triage_worker") with
          | none => simp [h1, h2, hf]
          | some r => simp [h1, h2, hf]
        · simp [h1, h2]
  · intro calls hres
    cases hx : extractChannelId inputText with
    | none =>
      exfalso
      rw [show start inputText =
        { result := .output "Could not extract channel ID from webhook payload. Skipping."
          ops := []
          branch := .extractFail } from by unfold start; rw [hx]] at hres
      simp at hres
    | some cid =>
      refine ⟨cid, rfl, ?_⟩
      unfold start
      rw [hx]
  · intro st calls hrest hres
    subst hrest
    unfold onToolResults at hres ⊢
    by_cases h1 : st.stage = "checking_channel"
    · refine ⟨h1, ?_⟩
      cases hf : results.find? (fun x => x.toolName == "slack_get_conversation_info") with
      | none => rw [hf] at hres; simp [h1] at hres
      | some r =>
        cases hn : r.channelNameField with
        | none => rw [hf] at hres; simp [h1, hn] at hres
        | some n =>
          by_cases hne : n = ""
          · rw [hf] at hres; simp [h1, hn, hne] at hres
          · by_cases hmt : n = TARGET_CHANNEL
            · subst hmt
              exact ⟨TARGET_CHANNEL, by simp [h1, hf, hn, TARGET_CHANNEL]⟩
            · rw [hf] at hres
              simp [h1, hn, hne, hmt] at hres
    · exfalso
      by_cases h2 : st.stage = "running_triage"
      · cases hf : results.find? (fun x => x.toolName == "its_broken_triage_worker") with
        | none => rw [hf] at hres; simp [h1, h2] at hres
        | some r => rw [hf] at hres; simp [h1, h2] at hres
      · simp [h1, h2] at hres

/-- Witness for C6 at concrete suspensions: `start` on
`{"channel":"C222"}` saves the initial `checking_channel` state, and a
matching `checking_channel` resumption restores once then saves the
`running_triage` state over it. -/
theorem state_access_discipline_witness :
    (∃ cid, extractChannelId "\x7b\"channel\":\"C222\"\x7d" = some cid ∧
      (start "\x7b\"channel\":\"C222\"\x7d").ops =
        [.saveOp
          { originalInput := "\x7b\"channel\":\"C222\"\x7d", channelId := cid,
            channelName := "", stage := "checking_channel" }]) ∧
    (∃ n, (onToolResults [.slackInfo (some "its-broken")]
        (some ⟨"orig", "C222", "", "checking_channel"⟩)).ops =
      [.restoreOp, .saveOp ⟨"orig", "C222", n, "running_triage"⟩]) := by
  have h := state_access_discipline "\x7b\"channel\":\"C222\"\x7d"
    [.slackInfo (some "its-broken")]
    (some ⟨"orig", "C222", "", "checking_channel"⟩)
  refine ⟨?_, ?_⟩
  · exact h.2.2.1
      [{ toolCallId := "check-channel"
         toolName := "slack_get_conversation_info"
         input := .channel "C222" }] (by decide)
  · obtain ⟨-, n, hops⟩ := h.2.2.2 ⟨"orig", "C222", "", "checking_channel"⟩
      [{ toolCallId := "run-triage"
         toolName := "its_broken_triage_worker"
         input := .text "orig" }] rfl (by decide)
    exact ⟨n, hops⟩

lemma matchChannelAt_nil : matchChannelAt [] = none := rfl

/-- The scan returns none exactly when the anchored pattern matches at no
start position. -/
lemma scanChannel_eq_none_iff (l : List Char) :
    scanChannel l = none ↔ ∀ i, matchChannelAt (l.drop i) = none := by
  induction l with
  | nil => simp [scanChannel, List.drop_nil, matchChannelAt_nil]
  | cons c cs ih =>
    cases hm : matchChannelAt (c :: cs) with
    | some tok =>
      simp only [scanChannel, hm]
      constructor
      · intro h
        exact Option.noConfusion h
      · intro h
        have h0 := h 0
        rw [List.drop_zero, hm] at h0
        exact Option.noConfusion h0
    | none =>
      simp only [scanChannel, hm]
      rw [ih]
      constructor
      · intro h i
        cases i with
        | zero => simpa [List.drop_zero] using hm
        | succ j => simpa [List.drop_succ_cons] using h j
      · intro h j
        simpa [List.drop_succ_cons] using h (j + 1)

/-- The scan returns a token exactly when the anchored pattern yields that
token at some start position before which it matches nowhere (leftmost
match of `String.match`). -/
lemma scanChannel_eq_some_iff (l : List Char) (tok : String) :
    scanChannel l = some tok ↔
      ∃ i, matchChannelAt (l.drop i) = some tok ∧
        ∀ j, j < i → matchChannelAt (l.drop j) = none := by
  induction l with
  | nil => simp [scanChannel, List.drop_nil, matchChannelAt_nil]
  | cons c cs ih =>
    cases hm : matchChannelAt (c :: cs) with
    | some tok2 =>
      simp only [scanChannel, hm]
      constructor
      · intro h
        refine ⟨0, ?_, ?_⟩
        · rw [List.drop_zero, hm]
          exact h
        · intro j hj
          exact absurd hj (Nat.not_lt_zero j)
      · rintro ⟨i, hi, hmin⟩
        cases i with
        | zero =>
          rw [List.drop_zero, hm] at hi
          exact hi
        | succ k =>
          have h0 := hmin 0 (Nat.succ_pos k)
          rw [List.drop_zero, hm] at h0
          exact Option.noConfusion h0
    | none =>
      simp only [scanChannel, hm]
      rw [ih]
      constructor
      · rintro ⟨i, hi, hmin⟩
        refine ⟨i + 1, ?_, ?_⟩
        · simpa [List.drop_succ_cons] using hi
        · intro j hj
          cases j with
          | zero => simpa [List.drop_zero] using hm
          | succ k => simpa [List.drop_succ_cons] using hmin k (by omega)
      · rintro ⟨i, hi, hmin⟩
        cases i with
        | zero =>
          rw [List.drop_zero, hm] at hi
          exact Option.noConfusion hi
        | succ k =>
          refine ⟨k, ?_, ?_⟩
          · simpa [List.drop_succ_cons] using hi
          · intro j hj
            simpa [List.drop_succ_cons] using hmin (j + 1) (by omega)

/-- C10: `extractChannelId` returns the captured token of the leftmost
start position where the case-insensitive pattern
`"channel" \s* : \s* "<alphanumerics>"` matches, anywhere in the text, and
returns null exactly when no position matches; the concrete conjunct shows
an uppercase field spelling with a lowercase token embedded in arbitrary
prose being accepted. -/
theorem extractChannelId_leftmost_match (t : String) :
    (extractChannelId t = none ↔
      ∀ i, matchChannelAt (t.data.drop i) = none) ∧
    (∀ tok, extractChannelId t = some tok ↔
      ∃ i, matchChannelAt (t.data.drop i) = some tok ∧
        ∀ j, j < i → matchChannelAt (t.data.drop j) = none) ∧
    extractChannelId "prose before \"CHANNEL\" : \"c0ffee\" prose after" =
      some "c0ffee" :=
  ⟨scanChannel_eq_none_iff t.data,
   fun tok => scanChannel_eq_some_iff t.data tok,
   by decide⟩

/-- Witness for C10: the concrete case-insensitive, prose-embedded match. -/
theorem extractChannelId_leftmost_match_witness :
    extractChannelId "prose before \"CHANNEL\" : \"c0ffee\" prose after" =
      some "c0ffee" :=
  (extractChannelId_leftmost_match "").2.2

end ItsBrokenTriage
